import Mathlib

/-!
Shallow embedding of the NutriTrack backend (Express + MySQL via mysql2) and
proofs about its aggregate-recalculation, authentication, goal and
registration logic.

Numeric columns (DECIMAL nutrition values, heart rates, goal values) are
modelled as exact rationals; SQL NULL is modelled as `Option`.  The SQL
aggregate functions SUM/AVG/MAX skip NULL rows, and the code wraps them in
COALESCE(.., 0); the helpers below embed exactly that semantics.
-/

namespace NutriTrack

/-- COALESCE(SUM(col), 0): SUM skips NULL rows and is NULL on the empty set,
so the coalesced value is the plain sum of the non-NULL values. -/
def sqlSumC0 (xs : List (Option ℚ)) : ℚ :=
  (xs.filterMap id).sum

/-- COALESCE(AVG(col), 0): AVG skips NULL rows in both numerator and
denominator, and is NULL (coalesced to 0) when no non-NULL row exists. -/
def sqlAvgC0 (xs : List (Option ℚ)) : ℚ :=
  match xs.filterMap id with
  | [] => 0
  | v :: vs => (v :: vs).sum / (((v :: vs).length : Nat) : ℚ)

/-- COALESCE(MAX(col), 0): MAX skips NULL rows and is NULL (coalesced to 0)
when no non-NULL row exists. -/
def sqlMaxC0 (xs : List (Option ℚ)) : ℚ :=
  match xs.filterMap id with
  | [] => 0
  | v :: vs => vs.foldl max v

/-- JS truthiness of an optional string field: absent or empty is falsy. -/
def truthyStr : Option String → Bool
  | none => false
  | some s => s ≠ ""

/-! ## Meals (src/routes/meals.js and the Meal model) -/

/-- A row of the Meals table (the columns the embedded handlers touch). -/
structure MealRow where
  mealId : Nat
  userId : Nat
  mealType : String
  mealDate : String
  mealTime : String
  totalCalories : ℚ
  totalProtein : ℚ
  totalCarbs : ℚ
  totalFat : ℚ
  notes : Option String
deriving DecidableEq, Repr

/-- A row of the Meal_Items table. -/
structure MealItemRow where
  mealId : Nat
  foodId : Nat
  quantity : ℚ
  servingUnit : String
  calories : ℚ
  protein : ℚ
  carbohydrates : ℚ
  fat : ℚ
deriving DecidableEq, Repr

/-- A row of the Food_Items table. -/
structure FoodRow where
  foodId : Nat
  foodName : String
  brand : Option String
  servingSize : Option String
  caloriesPerServing : ℚ
  protein : ℚ
  carbohydrates : ℚ
  fat : ℚ
deriving DecidableEq, Repr

/-- SELECT .. FROM Meal_Items mi WHERE mi.MealID = ? -/
def mealItemsOf (items : List MealItemRow) (mid : Nat) : List MealItemRow :=
  items.filter (fun mi => mi.mealId == mid)

/-- The UPDATE Meals SET Total_* = .. WHERE MealID = ? write-back. -/
def applyMealTotals (meals : List MealRow) (mid : Nat)
    (tc tp tcb tf : ℚ) : List MealRow :=
  meals.map (fun m =>
    if m.mealId == mid then
      { m with totalCalories := tc, totalProtein := tp,
               totalCarbs := tcb, totalFat := tf }
    else m)

/-- The fallback path of the post-insert recomputation: the manual
COALESCE(SUM(..), 0) aggregation query over Meal_Items followed by the
UPDATE Meals write-back (meals.js POST handler and Meal.updateTotals). -/
def updateMealTotalsFallback (meals : List MealRow)
    (items : List MealItemRow) (mid : Nat) : List MealRow :=
  let its := mealItemsOf items mid
  applyMealTotals meals mid
    (sqlSumC0 (its.map (fun mi => some mi.calories)))
    (sqlSumC0 (its.map (fun mi => some mi.protein)))
    (sqlSumC0 (its.map (fun mi => some mi.carbohydrates)))
    (sqlSumC0 (its.map (fun mi => some mi.fat)))

/-- Modelled from the spec: the UpdateMealTotals stored routine is installed
in the database, not under src/; per the spec the preferred path delegates
the same reduction to it (each derived Meal field a plain sum over the child
Meal_Items rows, zero when there are no children). -/
def updateMealTotalsRoutine (meals : List MealRow)
    (items : List MealItemRow) (mid : Nat) : List MealRow :=
  let its := mealItemsOf items mid
  applyMealTotals meals mid
    ((its.map (fun mi => mi.calories)).sum)
    ((its.map (fun mi => mi.protein)).sum)
    ((its.map (fun mi => mi.carbohydrates)).sum)
    ((its.map (fun mi => mi.fat)).sum)

/-- The post-insert recomputation: the handler first tries the stored
routine and on failure runs the manual fallback; `useRoutine` selects which
of the two paths executed. -/
def recomputeMealTotals (useRoutine : Bool) (meals : List MealRow)
    (items : List MealItemRow) (mid : Nat) : List MealRow :=
  if useRoutine then updateMealTotalsRoutine meals items mid
  else updateMealTotalsFallback meals items mid

theorem sqlSumC0_map_some (f : MealItemRow → ℚ) (l : List MealItemRow) :
    sqlSumC0 (l.map (fun mi => some (f mi))) = (l.map f).sum := by
  unfold sqlSumC0
  induction l with
  | nil => rfl
  | cons a t ih => simp [List.filterMap_cons] at ih ⊢; simp [ih]

/-- Both recomputation paths leave every row of the targeted meal with
totals equal to the sums of its Meal_Items fields. -/
theorem recomputeMealTotals_totals (useRoutine : Bool) (meals : List MealRow)
    (items : List MealItemRow) (mid : Nat) (m : MealRow)
    (hm : m ∈ recomputeMealTotals useRoutine meals items mid)
    (hid : m.mealId = mid) :
    m.totalCalories = ((mealItemsOf items mid).map (fun mi => mi.calories)).sum ∧
    m.totalProtein = ((mealItemsOf items mid).map (fun mi => mi.protein)).sum ∧
    m.totalCarbs = ((mealItemsOf items mid).map (fun mi => mi.carbohydrates)).sum ∧
    m.totalFat = ((mealItemsOf items mid).map (fun mi => mi.fat)).sum := by
  have key : ∀ (tc tp tcb tf : ℚ), m ∈ applyMealTotals meals mid tc tp tcb tf →
      m.totalCalories = tc ∧ m.totalProtein = tp ∧ m.totalCarbs = tcb ∧
      m.totalFat = tf := by
    intro tc tp tcb tf hmem
    rcases List.mem_map.1 hmem with ⟨m0, _, heq⟩
    by_cases h : m0.mealId = mid
    · simp [h] at heq
      subst heq; simp
    · have : (m0.mealId == mid) = false := by
        simp [h]
      rw [this] at heq
      simp at heq
      subst heq
      exact absurd hid h
  unfold recomputeMealTotals at hm
  cases useRoutine with
  | true =>
    rw [if_pos rfl] at hm
    unfold updateMealTotalsRoutine at hm
    exact key _ _ _ _ hm
  | false =>
    rw [if_neg Bool.false_ne_true] at hm
    unfold updateMealTotalsFallback at hm
    have := key _ _ _ _ hm
    simpa [sqlSumC0_map_some] using this

/-! ## Goals (src/routes/goals.js) -/

/-- A row of the Goals table (the columns the embedded handlers touch).
Timestamps are modelled as abstract ticks (`Nat`). -/
structure GoalRow where
  goalId : Nat
  userId : Nat
  goalType : String
  goalTitle : String
  targetValue : ℚ
  currentValue : ℚ
  unit : String
  status : String
  priority : String
  category : String
  description : Option String
  notes : Option String
  updatedDate : Option Nat
  completedDate : Option Nat
deriving DecidableEq, Repr

/-- The completion test of the PUT /:goalId/progress fallback:
(Goal_Type = Weight Loss and value at or below target) or
(Goal_Type among the four increasing types and value at or above target). -/
def goalCompleted (goalType : String) (targetValue currentValue : ℚ) : Bool :=
  (goalType == "Weight Loss" && decide (currentValue ≤ targetValue)) ||
  ((["Weight Gain", "Muscle Gain", "Strength", "Endurance"].contains goalType) &&
    decide (targetValue ≤ currentValue))

/-- The fallback UPDATE of the PUT /:goalId/progress handler.  MySQL
evaluates the SET assignments of a single-table UPDATE left to right, each
assignment reading the column values already updated by the assignments
before it, so the reference to Status inside the Completed_Date CASE sees
the newly assigned status, not the pre-update one.  The handler also
appends a Progress_Tracking history row and an Activity_Logs row; no claim
concerns those tables, so they are not carried in the state. -/
def updateGoalProgressFallback (now : Nat) (currentValue : ℚ)
    (g : GoalRow) : GoalRow :=
  let newStatus :=
    if goalCompleted g.goalType g.targetValue currentValue then "Completed"
    else "Active"
  let g1 := { g with currentValue := currentValue }
  let g2 := { g1 with status := newStatus }
  let g3 := { g2 with updatedDate := some now }
  { g3 with
    completedDate :=
      if newStatus == "Completed" && !(g3.status == "Completed") then some now
      else g3.completedDate }

/-- The UPDATE of the PUT /:goalId/status handler, with the same MySQL
left-to-right SET evaluation: Status is assigned before the Completed_Date
CASE reads it. -/
def updateGoalStatus (now : Nat) (status : String) (g : GoalRow) : GoalRow :=
  let g1 := { g with status := status }
  let g2 := { g1 with updatedDate := some now }
  { g2 with
    completedDate :=
      if status == "Completed" && !(g2.status == "Completed") then some now
      else g2.completedDate }

/-- The Weight Loss goal of the spec scenario: target 70, status Active,
no completed date. -/
def specGoal : GoalRow :=
  { goalId := 1, userId := 1, goalType := "Weight Loss",
    goalTitle := "Reach 70kg", targetValue := 70, currentValue := 80,
    unit := "kg", status := "Active", priority := "Medium",
    category := "Fitness", description := none, notes := none,
    updatedDate := none, completedDate := none }

theorem goalCompleted_iff (goalType : String) (targetValue currentValue : ℚ) :
    goalCompleted goalType targetValue currentValue = true ↔
      ((goalType = "Weight Loss" ∧ currentValue ≤ targetValue) ∨
       (goalType ∈ (["Weight Gain", "Muscle Gain", "Strength",
                     "Endurance"] : List String) ∧
        targetValue ≤ currentValue)) := by
  simp [goalCompleted, List.contains, and_comm]

theorem updateGoalProgressFallback_status (now : Nat) (v : ℚ) (g : GoalRow) :
    (updateGoalProgressFallback now v g).status =
      if goalCompleted g.goalType g.targetValue v then "Completed"
      else "Active" := by
  unfold updateGoalProgressFallback
  by_cases h : goalCompleted g.goalType g.targetValue v <;> simp [h]

/-! ## Claim theorems for meals and goals -/

/-- C1: for every meal and every table of Meal_Items rows reached by any
sequence of inserts, after the post-insert recomputation completes — on the
stored-routine path or on the fallback read-then-write path — the stored
Total_Calories of the meal equals the sum of the Calories fields of its
Meal_Items rows, and likewise Total_Protein, Total_Carbs and Total_Fat,
the sum over zero items being zero. -/
theorem meal_totals_equal_item_sums (useRoutine : Bool) (meals : List MealRow)
    (items : List MealItemRow) (mid : Nat) (m : MealRow)
    (hm : m ∈ recomputeMealTotals useRoutine meals items mid)
    (hid : m.mealId = mid) :
    m.totalCalories = ((mealItemsOf items mid).map (fun mi => mi.calories)).sum ∧
    m.totalProtein = ((mealItemsOf items mid).map (fun mi => mi.protein)).sum ∧
    m.totalCarbs = ((mealItemsOf items mid).map (fun mi => mi.carbohydrates)).sum ∧
    m.totalFat = ((mealItemsOf items mid).map (fun mi => mi.fat)).sum :=
  recomputeMealTotals_totals useRoutine meals items mid m hm hid

/-- A concrete meal row before recomputation. -/
def c1Meal : MealRow :=
  { mealId := 1, userId := 1, mealType := "Lunch", mealDate := "2025-01-01",
    mealTime := "12:00", totalCalories := 0, totalProtein := 0,
    totalCarbs := 0, totalFat := 0, notes := none }

/-- A concrete Meal_Items table: two rows of meal 1, one row of meal 2. -/
def c1Items : List MealItemRow :=
  [ { mealId := 1, foodId := 5, quantity := 2, servingUnit := "serving",
      calories := 100, protein := 10, carbohydrates := 20, fat := 5 },
    { mealId := 1, foodId := 6, quantity := 1, servingUnit := "serving",
      calories := 50, protein := 5, carbohydrates := 5, fat := 1 },
    { mealId := 2, foodId := 5, quantity := 1, servingUnit := "serving",
      calories := 999, protein := 9, carbohydrates := 9, fat := 9 } ]

/-- The meal row of `c1Meal` after the fallback recomputation. -/
def c1Row : MealRow :=
  { c1Meal with totalCalories := 150, totalProtein := 15,
                totalCarbs := 25, totalFat := 6 }

theorem meal_totals_equal_item_sums_witness :
    c1Row.totalCalories = ((mealItemsOf c1Items 1).map (fun mi => mi.calories)).sum ∧
    c1Row.totalProtein = ((mealItemsOf c1Items 1).map (fun mi => mi.protein)).sum ∧
    c1Row.totalCarbs = ((mealItemsOf c1Items 1).map (fun mi => mi.carbohydrates)).sum ∧
    c1Row.totalFat = ((mealItemsOf c1Items 1).map (fun mi => mi.fat)).sum :=
  meal_totals_equal_item_sums false [c1Meal] c1Items 1 c1Row
    (by norm_num [recomputeMealTotals, updateMealTotalsFallback,
                  applyMealTotals, mealItemsOf, sqlSumC0, c1Meal, c1Items,
                  c1Row, List.filterMap_cons, List.sum_cons])
    rfl

/-- C3 at its failing input: on the spec scenario (Weight Loss goal, target
70, sequential progress updates 80, 75, 69) the statuses are Active, Active,
Completed as the spec requires, but Completed_Date is never stamped: MySQL
assigns Status before the Completed_Date CASE reads it, so the guard
`new status is Completed and Status is not Completed` is identically false.
The explicit status-update path has the same SET ordering and also never
stamps it. -/
theorem goal_completedDate_never_stamped :
    (updateGoalProgressFallback 1 80 specGoal).status = "Active" ∧
    (updateGoalProgressFallback 2 75
      (updateGoalProgressFallback 1 80 specGoal)).status = "Active" ∧
    (updateGoalProgressFallback 3 69
      (updateGoalProgressFallback 2 75
        (updateGoalProgressFallback 1 80 specGoal))).status = "Completed" ∧
    (updateGoalProgressFallback 3 69
      (updateGoalProgressFallback 2 75
        (updateGoalProgressFallback 1 80 specGoal))).completedDate = none ∧
    (updateGoalStatus 4 "Completed" specGoal).status = "Completed" ∧
    (updateGoalStatus 4 "Completed" specGoal).completedDate = none := by
  decide

/-- C4: a fallback progress update on an Active goal results in status
Completed exactly when (type is Weight Loss and the new value is at most the
target) or (type is one of Weight Gain, Muscle Gain, Strength, Endurance and
the new value is at least the target), and in status Active otherwise. -/
theorem goal_progress_completion_condition (g : GoalRow) (now : Nat) (v : ℚ)
    (_hact : g.status = "Active") :
    ((updateGoalProgressFallback now v g).status = "Completed" ↔
      ((g.goalType = "Weight Loss" ∧ v ≤ g.targetValue) ∨
       (g.goalType ∈ (["Weight Gain", "Muscle Gain", "Strength",
                       "Endurance"] : List String) ∧ g.targetValue ≤ v))) ∧
    (¬ ((g.goalType = "Weight Loss" ∧ v ≤ g.targetValue) ∨
        (g.goalType ∈ (["Weight Gain", "Muscle Gain", "Strength",
                        "Endurance"] : List String) ∧ g.targetValue ≤ v)) →
      (updateGoalProgressFallback now v g).status = "Active") := by
  have hcond := goalCompleted_iff g.goalType g.targetValue v
  have hs := updateGoalProgressFallback_status now v g
  by_cases h : goalCompleted g.goalType g.targetValue v = true
  · rw [if_pos h] at hs
    refine ⟨?_, fun hn => absurd (hcond.1 h) hn⟩
    rw [hs]
    exact ⟨fun _ => hcond.1 h, fun _ => rfl⟩
  · rw [if_neg h] at hs
    refine ⟨?_, fun _ => hs⟩
    rw [hs]
    exact ⟨fun habs => absurd habs (by decide),
           fun hc => absurd (hcond.2 hc) h⟩

theorem goal_progress_completion_condition_witness :
    ((updateGoalProgressFallback 3 69 specGoal).status = "Completed" ↔
      ((specGoal.goalType = "Weight Loss" ∧ (69 : ℚ) ≤ specGoal.targetValue) ∨
       (specGoal.goalType ∈ (["Weight Gain", "Muscle Gain", "Strength",
                              "Endurance"] : List String) ∧
        specGoal.targetValue ≤ (69 : ℚ)))) ∧
    (¬ ((specGoal.goalType = "Weight Loss" ∧ (69 : ℚ) ≤ specGoal.targetValue) ∨
        (specGoal.goalType ∈ (["Weight Gain", "Muscle Gain", "Strength",
                               "Endurance"] : List String) ∧
         specGoal.targetValue ≤ (69 : ℚ))) →
      (updateGoalProgressFallback 3 69 specGoal).status = "Active") :=
  goal_progress_completion_condition specGoal 3 69 rfl

/-- C9: the fallback progress update overwrites the goal status
unconditionally: whatever the prior status (including Paused and Cancelled),
the result is Completed exactly when the completion threshold is met and
Active otherwise, and the resulting status does not depend on the prior
status at all. -/
theorem goal_progress_overwrites_status (g : GoalRow) (now : Nat) (v : ℚ) :
    ((updateGoalProgressFallback now v g).status = "Completed" ↔
      ((g.goalType = "Weight Loss" ∧ v ≤ g.targetValue) ∨
       (g.goalType ∈ (["Weight Gain", "Muscle Gain", "Strength",
                       "Endurance"] : List String) ∧ g.targetValue ≤ v))) ∧
    ((updateGoalProgressFallback now v g).status = "Active" ↔
      ¬ ((g.goalType = "Weight Loss" ∧ v ≤ g.targetValue) ∨
         (g.goalType ∈ (["Weight Gain", "Muscle Gain", "Strength",
                         "Endurance"] : List String) ∧ g.targetValue ≤ v))) ∧
    (∀ s : String,
      (updateGoalProgressFallback now v { g with status := s }).status =
        (updateGoalProgressFallback now v g).status) := by
  have hcond := goalCompleted_iff g.goalType g.targetValue v
  have hs := updateGoalProgressFallback_status now v g
  have hindep : ∀ s : String,
      (updateGoalProgressFallback now v { g with status := s }).status =
        (updateGoalProgressFallback now v g).status := by
    intro s
    rw [updateGoalProgressFallback_status, updateGoalProgressFallback_status]
  by_cases h : goalCompleted g.goalType g.targetValue v = true
  · rw [if_pos h] at hs
    refine ⟨?_, ?_, hindep⟩
    · rw [hs]; exact ⟨fun _ => hcond.1 h, fun _ => rfl⟩
    · rw [hs]
      exact ⟨fun habs => absurd habs (by decide),
             fun hn => absurd (hcond.1 h) hn⟩
  · rw [if_neg h] at hs
    refine ⟨?_, ?_, hindep⟩
    · rw [hs]
      exact ⟨fun habs => absurd habs (by decide),
             fun hc => absurd (hcond.2 hc) h⟩
    · rw [hs]; exact ⟨fun _ hc => absurd (hcond.2 hc) h, fun _ => rfl⟩

/-! ## Access Gate (src/middleware/auth.js) -/

/-- A row of the Users table (the columns the auth middleware selects). -/
structure UserRow where
  userId : Nat
  username : String
  email : String
  accountStatus : String
deriving DecidableEq, Repr

/-- Outcome of jwt.verify on a token: TokenExpiredError, JsonWebTokenError
(malformed or bad signature), or a decoded payload carrying the user id. -/
inductive VerifyOutcome where
  | expired : VerifyOutcome
  | malformed : VerifyOutcome
  | valid : Nat → VerifyOutcome
deriving DecidableEq, Repr

/-- The identity the gate attaches to the request on success. -/
structure AuthedUser where
  userId : Nat
  username : String
  email : String
deriving DecidableEq, Repr

/-- What the middleware does with the request: reject with an HTTP status
and the JSON error and message fields, or attach the identity and call
next(). -/
inductive AuthResult where
  | reject : Nat → String → String → AuthResult
  | proceed : AuthedUser → AuthResult
deriving DecidableEq, Repr

/-- Token extraction: accept both the Bearer form and a bare token
(authHeader.startsWith and substring(7), taken on the character list). -/
def extractToken (header : String) : String :=
  if "Bearer ".toList.isPrefixOf header.toList then ⟨header.toList.drop 7⟩
  else header

/-- SELECT .. FROM Users WHERE UserID = ? (first row). -/
def findUserById (users : List UserRow) (uid : Nat) : Option UserRow :=
  users.find? (fun u => u.userId == uid)

/-- The auth middleware.  `verify` stands for jwt.verify with the server
secret.  A JS-falsy (absent or empty) Authorization header is the
no-token rejection. -/
def authGate (header : Option String) (verify : String → VerifyOutcome)
    (users : List UserRow) : AuthResult :=
  match header with
  | none => .reject 401 "Access denied" "No token provided"
  | some h =>
    if h = "" then .reject 401 "Access denied" "No token provided"
    else
      let token := extractToken h
      if token = "" then .reject 401 "Access denied" "Invalid token format"
      else
        match verify token with
        | .expired => .reject 401 "Token expired" "Please login again"
        | .malformed => .reject 401 "Invalid token" "Token is malformed"
        | .valid uid =>
          match findUserById users uid with
          | none => .reject 401 "Access denied" "User not found"
          | some u =>
            if u.accountStatus ≠ "Active" then
              .reject 401 "Access denied" "Account suspended or inactive"
            else
              .proceed { userId := u.userId, username := u.username,
                         email := u.email }

/-- C2: for a request whose token verifies cryptographically and is
unexpired, the gate rejects 401 when the referenced user is missing or not
Active — in particular a token issued before a deactivation is rejected on
the next request — with rejections distinct from the TokenExpired and
TokenInvalid ones; it attaches the identity and proceeds exactly when the
user exists and is Active. -/
theorem access_gate_rejects_missing_or_inactive_user (h : String)
    (verify : String → VerifyOutcome) (users : List UserRow) (uid : Nat)
    (hne : h ≠ "") (htok : extractToken h ≠ "")
    (hv : verify (extractToken h) = .valid uid) :
    (findUserById users uid = none →
      authGate (some h) verify users =
        .reject 401 "Access denied" "User not found") ∧
    (∀ u : UserRow, findUserById users uid = some u →
      u.accountStatus ≠ "Active" →
      authGate (some h) verify users =
        .reject 401 "Access denied" "Account suspended or inactive") ∧
    (∀ u : UserRow, findUserById users uid = some u →
      u.accountStatus = "Active" →
      authGate (some h) verify users =
        .proceed { userId := u.userId, username := u.username,
                   email := u.email }) ∧
    (AuthResult.reject 401 "Access denied" "User not found" ≠
       .reject 401 "Token expired" "Please login again" ∧
     AuthResult.reject 401 "Access denied" "User not found" ≠
       .reject 401 "Invalid token" "Token is malformed" ∧
     AuthResult.reject 401 "Access denied" "Account suspended or inactive" ≠
       .reject 401 "Token expired" "Please login again" ∧
     AuthResult.reject 401 "Access denied" "Account suspended or inactive" ≠
       .reject 401 "Invalid token" "Token is malformed") := by
  have hbase : authGate (some h) verify users =
      match findUserById users uid with
      | none => .reject 401 "Access denied" "User not found"
      | some u =>
        if u.accountStatus ≠ "Active" then
          .reject 401 "Access denied" "Account suspended or inactive"
        else
          .proceed { userId := u.userId, username := u.username,
                     email := u.email } := by
    simp [authGate, hne, htok, hv]
  refine ⟨?_, ?_, ?_, by decide, by decide, by decide, by decide⟩
  · intro hnone; rw [hbase, hnone]
  · intro u hu hns; rw [hbase, hu]; simp only [if_pos hns]
  · intro u hu hs; rw [hbase, hu]
    simp only [hs]
    simp

/-- A verifier for the witness: one token verifies to user 1, everything
else is malformed. -/
def c2Verify : String → VerifyOutcome :=
  fun t => if t = "tok1" then .valid 1 else .malformed

/-- A Users table in which user 1 was deactivated after the token was
issued. -/
def c2Users : List UserRow :=
  [{ userId := 1, username := "alice", email := "alice@mail.test",
     accountStatus := "Suspended" }]

theorem access_gate_rejects_missing_or_inactive_user_witness :
    authGate (some "Bearer tok1") c2Verify c2Users =
      .reject 401 "Access denied" "Account suspended or inactive" ∧
    authGate (some "Bearer tok1") c2Verify [] =
      .reject 401 "Access denied" "User not found" := by
  constructor
  · exact (access_gate_rejects_missing_or_inactive_user "Bearer tok1"
      c2Verify c2Users 1 (by decide) (by decide) (by decide)).2.1
      { userId := 1, username := "alice", email := "alice@mail.test",
        accountStatus := "Suspended" } (by decide) (by decide)
  · exact (access_gate_rejects_missing_or_inactive_user "Bearer tok1"
      c2Verify [] 1 (by decide) (by decide) (by decide)).1 (by decide)

/-! ## Workouts (src/models/Workout.js) -/

/-- A row of the Workouts table (the columns Workout.updateTotals writes). -/
structure WorkoutRow where
  workoutId : Nat
  userId : Nat
  totalDuration : ℚ
  totalCaloriesBurned : ℚ
  averageHeartRate : ℚ
  maxHeartRate : ℚ
deriving DecidableEq, Repr

/-- A row of the Workout_Exercises table.  Duration and Heart_Rate_Avg are
nullable; Calories_Burned is always written by addExercise. -/
structure WorkoutExerciseRow where
  workoutId : Nat
  exerciseId : Nat
  duration : Option ℚ
  caloriesBurned : ℚ
  heartRateAvg : Option ℚ
deriving DecidableEq, Repr

/-- SELECT .. FROM Workout_Exercises we WHERE we.WorkoutID = ? -/
def workoutExercisesOf (exs : List WorkoutExerciseRow) (wid : Nat) :
    List WorkoutExerciseRow :=
  exs.filter (fun e => e.workoutId == wid)

/-- The fallback aggregation query of Workout.updateTotals and its UPDATE
write-back: COALESCE(SUM(Duration), 0), COALESCE(SUM(Calories_Burned), 0),
COALESCE(AVG(Heart_Rate_Avg), 0), COALESCE(MAX(Heart_Rate_Avg), 0). -/
def updateWorkoutTotalsFallback (ws : List WorkoutRow)
    (exs : List WorkoutExerciseRow) (wid : Nat) : List WorkoutRow :=
  ws.map (fun w =>
    if w.workoutId == wid then
      { w with
        totalDuration :=
          sqlSumC0 ((workoutExercisesOf exs wid).map (fun e => e.duration)),
        totalCaloriesBurned :=
          sqlSumC0 ((workoutExercisesOf exs wid).map
            (fun e => some e.caloriesBurned)),
        averageHeartRate :=
          sqlAvgC0 ((workoutExercisesOf exs wid).map (fun e => e.heartRateAvg)),
        maxHeartRate :=
          sqlMaxC0 ((workoutExercisesOf exs wid).map (fun e => e.heartRateAvg)) }
    else w)

theorem foldl_max_mem (l : List ℚ) : ∀ a : ℚ, l.foldl max a ∈ a :: l := by
  induction l with
  | nil => intro a; simp
  | cons b t ih =>
    intro a
    rw [List.foldl_cons]
    rcases List.mem_cons.1 (ih (max a b)) with h1 | h1
    · rcases max_choice a b with hm | hm
      · rw [h1, hm]; exact List.mem_cons_self _ _
      · rw [h1, hm]; exact List.mem_cons_of_mem _ (List.mem_cons_self _ _)
    · exact List.mem_cons_of_mem _ (List.mem_cons_of_mem _ h1)

theorem le_foldl_max (l : List ℚ) : ∀ a : ℚ, ∀ x ∈ a :: l, x ≤ l.foldl max a := by
  induction l with
  | nil =>
    intro a x hx
    rw [List.mem_singleton] at hx
    simp [hx]
  | cons b t ih =>
    intro a x hx
    rw [List.foldl_cons]
    have hub := ih (max a b) (max a b) (List.mem_cons_self _ _)
    rcases List.mem_cons.1 hx with h1 | h1
    · rw [h1]
      exact le_trans (le_max_left a b) hub
    · rcases List.mem_cons.1 h1 with h2 | h2
      · rw [h2]
        exact le_trans (le_max_right a b) hub
      · exact ih (max a b) x (List.mem_cons_of_mem _ h2)

/-- COALESCE(MAX(..), 0) on a column with at least one non-NULL value is the
maximum of the non-NULL values. -/
theorem sqlMaxC0_spec (xs : List (Option ℚ)) (hne : xs.filterMap id ≠ []) :
    sqlMaxC0 xs ∈ xs.filterMap id ∧ ∀ x ∈ xs.filterMap id, x ≤ sqlMaxC0 xs := by
  unfold sqlMaxC0
  cases hfm : xs.filterMap id with
  | nil => exact absurd hfm hne
  | cons v vs =>
    exact ⟨foldl_max_mem vs v, le_foldl_max vs v⟩

/-- COALESCE(AVG(..), 0) on a column with at least one non-NULL value is the
sum of the non-NULL values divided by their count. -/
theorem sqlAvgC0_spec (xs : List (Option ℚ)) (hne : xs.filterMap id ≠ []) :
    sqlAvgC0 xs * ((xs.filterMap id).length : ℚ) = (xs.filterMap id).sum := by
  unfold sqlAvgC0
  cases hfm : xs.filterMap id with
  | nil => exact absurd hfm hne
  | cons v vs =>
    have hlen : ((((v :: vs).length : Nat)) : ℚ) ≠ 0 :=
      Nat.cast_ne_zero.2 (Nat.succ_ne_zero _)
    exact div_mul_cancel₀ _ hlen

/-- C5: after the fallback recomputation, the written Average_Heart_Rate is
the mean of the Heart_Rate_Avg values over only those exercises of the
workout that have one (NULL rows excluded from numerator and denominator,
not counted as zero) — stated multiplicatively — and Max_Heart_Rate is the
maximum over those same exercises. -/
theorem workout_heart_rate_ignores_null (ws : List WorkoutRow)
    (exs : List WorkoutExerciseRow) (wid : Nat) (w : WorkoutRow)
    (hw : w ∈ updateWorkoutTotalsFallback ws exs wid)
    (hid : w.workoutId = wid)
    (hne : (workoutExercisesOf exs wid).filterMap (fun e => e.heartRateAvg)
             ≠ []) :
    (w.averageHeartRate *
        (((workoutExercisesOf exs wid).filterMap
            (fun e => e.heartRateAvg)).length : ℚ) =
      ((workoutExercisesOf exs wid).filterMap
          (fun e => e.heartRateAvg)).sum) ∧
    w.maxHeartRate ∈
      (workoutExercisesOf exs wid).filterMap (fun e => e.heartRateAvg) ∧
    (∀ x ∈ (workoutExercisesOf exs wid).filterMap (fun e => e.heartRateAvg),
      x ≤ w.maxHeartRate) := by
  have hmapfm : ((workoutExercisesOf exs wid).map
      (fun e => e.heartRateAvg)).filterMap id =
      (workoutExercisesOf exs wid).filterMap (fun e => e.heartRateAvg) := by
    rw [List.filterMap_map]
    rfl
  have key : w.averageHeartRate =
      sqlAvgC0 ((workoutExercisesOf exs wid).map (fun e => e.heartRateAvg)) ∧
      w.maxHeartRate =
      sqlMaxC0 ((workoutExercisesOf exs wid).map (fun e => e.heartRateAvg)) := by
    rcases List.mem_map.1 hw with ⟨w0, _, heq⟩
    by_cases h : w0.workoutId = wid
    · simp [h] at heq
      subst heq; simp
    · have : (w0.workoutId == wid) = false := by simp [h]
      rw [this] at heq
      simp at heq
      subst heq
      exact absurd hid h
  have hne0 : ((workoutExercisesOf exs wid).map
      (fun e => e.heartRateAvg)).filterMap id ≠ [] := by
    rw [hmapfm]; exact hne
  have havg := sqlAvgC0_spec _ hne0
  have hmax := sqlMaxC0_spec _ hne0
  rw [hmapfm] at havg hmax
  rw [key.1, key.2]
  exact ⟨havg, hmax.1, hmax.2⟩

/-- A concrete workout and exercise table: exercise 2 has no heart-rate
value and must not pull the average down. -/
def c5Workouts : List WorkoutRow :=
  [{ workoutId := 1, userId := 1, totalDuration := 0,
     totalCaloriesBurned := 0, averageHeartRate := 0, maxHeartRate := 0 }]

def c5Exercises : List WorkoutExerciseRow :=
  [ { workoutId := 1, exerciseId := 1, duration := some 30,
      caloriesBurned := 100, heartRateAvg := some 100 },
    { workoutId := 1, exerciseId := 2, duration := none,
      caloriesBurned := 50, heartRateAvg := none },
    { workoutId := 1, exerciseId := 3, duration := some 10,
      caloriesBurned := 20, heartRateAvg := some 120 } ]

/-- The workout row after the fallback recomputation: the average is 110,
over the two exercises that have a heart rate, not 220/3. -/
def c5Row : WorkoutRow :=
  { workoutId := 1, userId := 1, totalDuration := 40,
    totalCaloriesBurned := 170, averageHeartRate := 110, maxHeartRate := 120 }

theorem workout_heart_rate_ignores_null_witness :
    (c5Row.averageHeartRate *
        (((workoutExercisesOf c5Exercises 1).filterMap
            (fun e => e.heartRateAvg)).length : ℚ) =
      ((workoutExercisesOf c5Exercises 1).filterMap
          (fun e => e.heartRateAvg)).sum) ∧
    c5Row.maxHeartRate ∈
      (workoutExercisesOf c5Exercises 1).filterMap (fun e => e.heartRateAvg) ∧
    (∀ x ∈ (workoutExercisesOf c5Exercises 1).filterMap
        (fun e => e.heartRateAvg), x ≤ c5Row.maxHeartRate) :=
  workout_heart_rate_ignores_null c5Workouts c5Exercises 1 c5Row
    (by norm_num [updateWorkoutTotalsFallback, workoutExercisesOf,
                  sqlSumC0, sqlAvgC0, sqlMaxC0, c5Workouts, c5Exercises,
                  c5Row, List.filterMap_cons, List.sum_cons, max_def])
    rfl
    (by decide)

/-! ## Registration (the auth routes file, src/unnamed/part_002) -/

/-- The character class of the regex \s (its ASCII members; the Unicode
space characters it also matches do not occur in the embedded inputs). -/
def jsSpace (c : Char) : Bool :=
  c = ' ' || c = '\t' || c = '\n' || c = '\r' ||
  c = Char.ofNat 11 || c = Char.ofNat 12

/-- One maximal piece of the email pattern, matching one-or-more characters
that are neither whitespace nor the at sign. -/
def emailPartOk (cs : List Char) : Bool :=
  !cs.isEmpty && cs.all (fun c => !jsSpace c && c != '@')

/-- The anchored registration email pattern: since none of its three pieces
may contain the at sign, the string must contain exactly one at sign
(splitOn yields exactly two parts); the part before it is a nonempty run
with no whitespace; the part after it decomposes as piece, literal dot,
piece, which holds exactly when it is such a run containing a dot that is
neither its first nor its last character. -/
def emailRegexTest (email : String) : Bool :=
  match email.toList.splitOn '@' with
  | [localPart, domainPart] =>
    emailPartOk localPart && emailPartOk domainPart &&
    (domainPart.drop 1).dropLast.contains '.'
  | _ => false

/-- A row of the Users table as registration writes it. -/
structure RegUserRow where
  userId : Nat
  username : String
  email : String
  passwordHash : String
  firstName : String
  lastName : String
  dateOfBirth : String
  gender : String
  phone : Option String
deriving DecidableEq, Repr

/-- A row of the User_Profiles table (the default profile insert). -/
structure ProfileRow where
  userId : Nat
  activityLevel : String
  fitnessLevel : String
deriving DecidableEq, Repr

/-- A row of the User_Preferences table (the default preferences insert). -/
structure PrefRow where
  userId : Nat
  measurementUnits : String
  privacyLevel : String
  themePreference : String
  dailyCalorieGoal : ℚ
deriving DecidableEq, Repr

/-- The tables the registration handler writes. -/
structure AuthDb where
  users : List RegUserRow
  profiles : List ProfileRow
  preferences : List PrefRow
  nextUserId : Nat
deriving DecidableEq, Repr

/-- The registration request body; a JS-falsy (absent or empty) field is
`none` or `some ""`. -/
structure RegisterReq where
  username : Option String
  email : Option String
  password : Option String
  firstName : Option String
  lastName : Option String
  dateOfBirth : Option String
  gender : Option String
  phone : Option String
deriving DecidableEq, Repr

/-- The responses of POST /register the claims distinguish. -/
inductive RegisterResult where
  | badRequest : Nat → String → String → RegisterResult
  | conflict : Nat → String → String → RegisterResult
  | createdUser : Nat → Nat → RegisterResult
deriving DecidableEq, Repr

/-- POST /register.  `hash` stands for bcrypt.hash with its salt. -/
def register (hash : String → String) (db : AuthDb) (req : RegisterReq) :
    RegisterResult × AuthDb :=
  if !truthyStr req.username || !truthyStr req.email ||
     !truthyStr req.password || !truthyStr req.firstName ||
     !truthyStr req.lastName || !truthyStr req.dateOfBirth ||
     !truthyStr req.gender then
    (.badRequest 400 "Validation failed" "All required fields must be provided",
     db)
  else if !emailRegexTest (req.email.getD "") then
    (.badRequest 400 "Validation failed" "Invalid email format", db)
  else if (req.password.getD "").length < 6 then
    (.badRequest 400 "Validation failed"
       "Password must be at least 6 characters long", db)
  else if 0 < (db.users.filter (fun u =>
      u.email == req.email.getD "" ||
      u.username == req.username.getD "")).length then
    (.conflict 409 "User exists"
       "User with this email or username already exists", db)
  else
    let uid := db.nextUserId
    (.createdUser 201 uid,
     { users := db.users ++
         [{ userId := uid, username := req.username.getD "",
            email := req.email.getD "",
            passwordHash := hash (req.password.getD ""),
            firstName := req.firstName.getD "",
            lastName := req.lastName.getD "",
            dateOfBirth := req.dateOfBirth.getD "",
            gender := req.gender.getD "", phone := req.phone }],
       profiles := db.profiles ++
         [{ userId := uid, activityLevel := "Moderately Active",
            fitnessLevel := "Beginner" }],
       preferences := db.preferences ++
         [{ userId := uid, measurementUnits := "Metric",
            privacyLevel := "Private", themePreference := "Auto",
            dailyCalorieGoal := 2000 }],
       nextUserId := uid + 1 })

/-- C6: a registration attempt that reuses the email or the username of an
already-registered user fails with Conflict 409 and performs no writes: the
Users, User_Profiles and User_Preferences tables are left exactly as they
were. -/
theorem register_duplicate_conflict_no_writes (hash : String → String)
    (db : AuthDb) (req : RegisterReq)
    (husr : truthyStr req.username = true)
    (heml : truthyStr req.email = true)
    (hpwd : truthyStr req.password = true)
    (hfn : truthyStr req.firstName = true)
    (hln : truthyStr req.lastName = true)
    (hdob : truthyStr req.dateOfBirth = true)
    (hgen : truthyStr req.gender = true)
    (hfmt : emailRegexTest (req.email.getD "") = true)
    (hlen : ¬ (req.password.getD "").length < 6)
    (hdup : ∃ u ∈ db.users, u.email = req.email.getD "" ∨
      u.username = req.username.getD "") :
    register hash db req =
      (.conflict 409 "User exists"
         "User with this email or username already exists", db) := by
  rcases hdup with ⟨u, hu, hor⟩
  have hmem : u ∈ db.users.filter (fun u =>
      u.email == req.email.getD "" ||
      u.username == req.username.getD "") := by
    rw [List.mem_filter]
    refine ⟨hu, ?_⟩
    rcases hor with h | h <;> simp [h]
  have hpos : 0 < (db.users.filter (fun u =>
      u.email == req.email.getD "" ||
      u.username == req.username.getD "")).length :=
    List.length_pos.2 (List.ne_nil_of_mem hmem)
  unfold register
  rw [if_neg (by simp [husr, heml, hpwd, hfn, hln, hdob, hgen]),
      if_neg (by simp [hfmt]), if_neg hlen, if_pos hpos]

/-- The empty database before the first registration. -/
def c6Db : AuthDb :=
  { users := [], profiles := [], preferences := [], nextUserId := 1 }

/-- The first registration request. -/
def c6Req1 : RegisterReq :=
  { username := some "alice", email := some "alice@mail.test",
    password := some "secret1", firstName := some "Alice",
    lastName := some "Ames", dateOfBirth := some "1990-01-01",
    gender := some "F", phone := none }

/-- The second attempt: a different username but the same email. -/
def c6Req2 : RegisterReq :=
  { c6Req1 with username := some "alice2", password := some "secret2" }

/-- A stand-in for bcrypt.hash in the witness run. -/
def c6Hash (s : String) : String := String.append s "#h"

theorem register_duplicate_conflict_no_writes_witness :
    register c6Hash (register c6Hash c6Db c6Req1).2 c6Req2 =
      (.conflict 409 "User exists"
         "User with this email or username already exists",
       (register c6Hash c6Db c6Req1).2) :=
  register_duplicate_conflict_no_writes c6Hash
    (register c6Hash c6Db c6Req1).2 c6Req2
    (by decide) (by decide) (by decide) (by decide) (by decide) (by decide)
    (by decide) (by decide) (by decide) (by decide)

/-! ## Goal creation (src/routes/goals.js POST /) -/

/-- JS truthiness of an optional numeric field: absent or zero is falsy. -/
def truthyNum : Option ℚ → Bool
  | none => false
  | some q => q != 0

/-- JS `value || fallback` on an optional string field. -/
def strOr (o : Option String) (d : String) : String :=
  if truthyStr o then o.getD d else d

/-- The goal-creation request body.  The two date fields are the parsed
timestamps the handler compares via new Date(..); a JS-falsy (absent or
empty) field is `none`. -/
structure GoalCreateReq where
  goalType : Option String
  goalTitle : Option String
  targetValue : Option ℚ
  unit : Option String
  startDate : Option Nat
  targetDate : Option Nat
  priority : Option String
  category : Option String
  description : Option String
  notes : Option String
deriving DecidableEq, Repr

/-- The responses of POST /api/goals the claims distinguish. -/
inductive CreateGoalResult where
  | badRequest : Nat → String → String → CreateGoalResult
  | created : Nat → String → Nat → CreateGoalResult
deriving DecidableEq, Repr

/-- SELECT COUNT(*) FROM Goals WHERE UserID = ? AND Status = 'Active'. -/
def activeGoalCount (goals : List GoalRow) (uid : Nat) : Nat :=
  (goals.filter (fun g => g.userId == uid && g.status == "Active")).length

/-- POST /api/goals.  The INSERT names neither Status nor Current_Value;
modelled from the spec: their schema defaults (the schema is not under
src/) are Active and 0, as the ceiling scenario of the spec assumes. -/
def createGoal (goals : List GoalRow) (uid : Nat) (nextId : Nat)
    (req : GoalCreateReq) : CreateGoalResult × List GoalRow :=
  if !truthyStr req.goalType || !truthyStr req.goalTitle ||
     !truthyNum req.targetValue || req.startDate.isNone ||
     req.targetDate.isNone then
    (.badRequest 400 "Validation failed"
       "Goal type, title, target value, start date, and target date are required",
     goals)
  else if req.targetDate.getD 0 ≤ req.startDate.getD 0 then
    (.badRequest 400 "Validation failed"
       "Target date must be after start date", goals)
  else if 10 ≤ activeGoalCount goals uid then
    (.badRequest 400 "Goal limit exceeded"
       "You can have maximum 10 active goals at a time", goals)
  else
    (.created 201 "Goal created successfully" nextId,
     goals ++
       [{ goalId := nextId, userId := uid,
          goalType := req.goalType.getD "",
          goalTitle := req.goalTitle.getD "",
          targetValue := req.targetValue.getD 0,
          currentValue := 0,
          unit := strOr req.unit "unit",
          status := "Active",
          priority := strOr req.priority "Medium",
          category := strOr req.category "Fitness",
          description := req.description, notes := req.notes,
          updatedDate := none, completedDate := none }])

/-- C7: a goal-creation request by a user who already has 10 or more Active
goals fails with the 400 ceiling message and inserts no row, while a valid
request by a user with at most 9 Active goals is created. -/
theorem goal_creation_active_ceiling (goals : List GoalRow)
    (uid nextId : Nat) (req : GoalCreateReq)
    (hty : truthyStr req.goalType = true)
    (hti : truthyStr req.goalTitle = true)
    (htv : truthyNum req.targetValue = true)
    (hsd : req.startDate.isNone = false)
    (htd : req.targetDate.isNone = false)
    (hdate : req.startDate.getD 0 < req.targetDate.getD 0) :
    (10 ≤ activeGoalCount goals uid →
      createGoal goals uid nextId req =
        (.badRequest 400 "Goal limit exceeded"
           "You can have maximum 10 active goals at a time", goals)) ∧
    (activeGoalCount goals uid ≤ 9 →
      (createGoal goals uid nextId req).1 =
        .created 201 "Goal created successfully" nextId ∧
      ∃ r : GoalRow, (createGoal goals uid nextId req).2 = goals ++ [r]) := by
  have hc : createGoal goals uid nextId req =
      if 10 ≤ activeGoalCount goals uid then
        (.badRequest 400 "Goal limit exceeded"
           "You can have maximum 10 active goals at a time", goals)
      else
        (.created 201 "Goal created successfully" nextId,
         goals ++
           [{ goalId := nextId, userId := uid,
              goalType := req.goalType.getD "",
              goalTitle := req.goalTitle.getD "",
              targetValue := req.targetValue.getD 0,
              currentValue := 0,
              unit := strOr req.unit "unit",
              status := "Active",
              priority := strOr req.priority "Medium",
              category := strOr req.category "Fitness",
              description := req.description, notes := req.notes,
              updatedDate := none, completedDate := none }]) := by
    unfold createGoal
    rw [if_neg (by simp [hty, hti, htv, hsd, htd]),
        if_neg (not_le.2 hdate)]
  constructor
  · intro h10
    rw [hc, if_pos h10]
  · intro h9
    have hno : ¬ 10 ≤ activeGoalCount goals uid := by omega
    rw [hc, if_neg hno]
    exact ⟨rfl, _, rfl⟩

/-- One Active goal of user 1, for populating the witness tables. -/
def c7Goal (i : Nat) : GoalRow :=
  { goalId := i, userId := 1, goalType := "Strength", goalTitle := "Lift",
    targetValue := 100, currentValue := 0, unit := "kg", status := "Active",
    priority := "Medium", category := "Fitness", description := none,
    notes := none, updatedDate := none, completedDate := none }

/-- Ten Active goals of user 1. -/
def c7Goals10 : List GoalRow := (List.range 10).map c7Goal

/-- The same ten goals after one is moved to Paused, leaving nine Active. -/
def c7Goals9 : List GoalRow :=
  updateGoalStatus 5 "Paused" (c7Goal 0) ::
    (List.range 9).map (fun i => c7Goal (i + 1))

/-- The eleventh creation request. -/
def c7Req : GoalCreateReq :=
  { goalType := some "Strength", goalTitle := some "Lift more",
    targetValue := some 120, unit := some "kg", startDate := some 100,
    targetDate := some 200, priority := none, category := none,
    description := none, notes := none }

theorem goal_creation_active_ceiling_witness :
    createGoal c7Goals10 1 11 c7Req =
      (.badRequest 400 "Goal limit exceeded"
         "You can have maximum 10 active goals at a time", c7Goals10) ∧
    (createGoal c7Goals9 1 11 c7Req).1 =
      .created 201 "Goal created successfully" 11 := by
  constructor
  · exact (goal_creation_active_ceiling c7Goals10 1 11 c7Req (by decide)
      (by decide) (by decide) (by decide) (by decide) (by decide)).1
      (by decide)
  · exact ((goal_creation_active_ceiling c7Goals9 1 11 c7Req (by decide)
      (by decide) (by decide) (by decide) (by decide) (by decide)).2
      (by decide)).1

/-! ## GET /api/meals/:mealId (src/routes/meals.js) -/

/-- One entry of the JSON_ARRAYAGG food_items array; the LEFT JOINs leave
every column NULL when the joined row is absent. -/
structure MealItemDetail where
  foodName : Option String
  brand : Option String
  quantity : Option ℚ
  calories : Option ℚ
  servingSize : Option String
deriving DecidableEq, Repr

/-- The selected meal columns together with the aggregated food_items. -/
structure MealDetails where
  mealId : Nat
  mealType : String
  mealDate : String
  mealTime : String
  totalCalories : ℚ
  totalProtein : ℚ
  totalCarbs : ℚ
  totalFat : ℚ
  notes : Option String
  foodItems : List MealItemDetail
deriving DecidableEq, Repr

/-- SELECT .. FROM Food_Items WHERE FoodID = ? (first row). -/
def findFood (foods : List FoodRow) (fid : Nat) : Option FoodRow :=
  foods.find? (fun f => f.foodId == fid)

/-- The food_items array of the detail query: LEFT JOIN Meal_Items then
LEFT JOIN Food_Items, aggregated by JSON_ARRAYAGG — a meal with no items
yields one all-NULL entry, an item whose food row is missing keeps its own
columns and NULL food columns. -/
def mealFoodItemsAgg (items : List MealItemRow) (foods : List FoodRow)
    (mid : Nat) : List MealItemDetail :=
  match mealItemsOf items mid with
  | [] => [{ foodName := none, brand := none, quantity := none,
             calories := none, servingSize := none }]
  | mi :: mis =>
    (mi :: mis).map (fun mi =>
      match findFood foods mi.foodId with
      | some f =>
        { foodName := some f.foodName, brand := f.brand,
          quantity := some mi.quantity, calories := some mi.calories,
          servingSize := f.servingSize }
      | none =>
        { foodName := none, brand := none, quantity := some mi.quantity,
          calories := some mi.calories, servingSize := none })

/-- The two responses of GET /api/meals/:mealId. -/
inductive GetMealResult where
  | notFound : Nat → String → String → GetMealResult
  | ok : Nat → MealDetails → GetMealResult
deriving DecidableEq, Repr

/-- GET /api/meals/:mealId: one query filtered by both MealID and UserID;
an empty result — nonexistent id or an id owned by someone else — yields
the one 404 response. -/
def getMealById (meals : List MealRow) (items : List MealItemRow)
    (foods : List FoodRow) (mid uid : Nat) : GetMealResult :=
  match meals.filter (fun m => m.mealId == mid && m.userId == uid) with
  | [] => .notFound 404 "Meal not found" "Meal does not exist or access denied"
  | m :: _ =>
    .ok 200
      { mealId := m.mealId, mealType := m.mealType, mealDate := m.mealDate,
        mealTime := m.mealTime, totalCalories := m.totalCalories,
        totalProtein := m.totalProtein, totalCarbs := m.totalCarbs,
        totalFat := m.totalFat, notes := m.notes,
        foodItems := mealFoodItemsAgg items foods m.mealId }

/-- C8: a GET of a meal id that exists but belongs to a different user is
indistinguishable from a GET of a nonexistent meal id: the two runs return
equal responses (the literal 404), over any pair of database states. -/
theorem meal_not_owned_same_404 (meals1 : List MealRow)
    (items1 : List MealItemRow) (foods1 : List FoodRow)
    (meals2 : List MealRow) (items2 : List MealItemRow) (foods2 : List FoodRow)
    (mid uid : Nat)
    (_hex : ∃ m ∈ meals1, m.mealId = mid)
    (hnotown : ∀ m ∈ meals1, m.mealId = mid → m.userId ≠ uid)
    (hmissing : ∀ m ∈ meals2, m.mealId ≠ mid) :
    getMealById meals1 items1 foods1 mid uid =
      getMealById meals2 items2 foods2 mid uid := by
  have h1 : meals1.filter (fun m => m.mealId == mid && m.userId == uid)
      = [] := by
    rw [List.filter_eq_nil_iff]
    intro m hm
    by_cases hid : m.mealId = mid
    · have := hnotown m hm hid
      simp [hid, this]
    · simp [hid]
  have h2 : meals2.filter (fun m => m.mealId == mid && m.userId == uid)
      = [] := by
    rw [List.filter_eq_nil_iff]
    intro m hm
    simp [hmissing m hm]
  unfold getMealById
  rw [h1, h2]

/-- A meal that exists and belongs to user 2. -/
def c8Meal : MealRow :=
  { mealId := 7, userId := 2, mealType := "Dinner", mealDate := "2025-01-02",
    mealTime := "19:00", totalCalories := 500, totalProtein := 20,
    totalCarbs := 60, totalFat := 15, notes := none }

theorem meal_not_owned_same_404_witness :
    getMealById [c8Meal] [] [] 7 1 = getMealById [] [] [] 7 1 :=
  meal_not_owned_same_404 [c8Meal] [] [] [] [] [] 7 1
    (by decide) (by decide) (by decide)

/-! ## POST /api/meals (src/routes/meals.js) -/

/-- One entry of the foodItems array of the request body. -/
structure FoodItemInput where
  foodId : Option Nat
  quantity : Option ℚ
  servingUnit : Option String
deriving DecidableEq, Repr

/-- The guard `!foodId || !quantity || quantity <= 0` that makes the loop
skip an item: a falsy foodId (absent or 0), a falsy quantity (absent or 0,
subsumed by the nonpositivity test) or a nonpositive quantity. -/
def itemInvalid (it : FoodItemInput) : Bool :=
  match it.foodId, it.quantity with
  | none, _ => true
  | some 0, _ => true
  | some _, none => true
  | some _, some q => decide (q ≤ 0)

/-- The body of the insert loop for one item: skip it when invalid, look up
its Food_Items row, skip it when that row is absent, otherwise insert a
Meal_Items row whose nutrition fields are the food values scaled by the
quantity (servingUnit defaults to serving when absent). -/
def insertMealItem (foods : List FoodRow) (mid : Nat) (it : FoodItemInput) :
    Option MealItemRow :=
  if itemInvalid it then none
  else
    match findFood foods (it.foodId.getD 0) with
    | none => none
    | some f =>
      some { mealId := mid, foodId := it.foodId.getD 0,
             quantity := it.quantity.getD 0,
             servingUnit := it.servingUnit.getD "serving",
             calories := f.caloriesPerServing * it.quantity.getD 0,
             protein := f.protein * it.quantity.getD 0,
             carbohydrates := f.carbohydrates * it.quantity.getD 0,
             fat := f.fat * it.quantity.getD 0 }

/-- The whole insert loop, in request order. -/
def insertMealItems (foods : List FoodRow) (mid : Nat)
    (its : List FoodItemInput) : List MealItemRow :=
  its.filterMap (insertMealItem foods mid)

/-- Whether the loop inserts a row for the item: it is valid and its food
row exists. -/
def itemAccepted (foods : List FoodRow) (it : FoodItemInput) : Bool :=
  !itemInvalid it && (findFood foods (it.foodId.getD 0)).isSome

/-- The tables POST /api/meals touches, plus the next AUTO_INCREMENT id. -/
structure MealsDb where
  meals : List MealRow
  mealItems : List MealItemRow
  foods : List FoodRow
  nextMealId : Nat
deriving DecidableEq, Repr

/-- The request body of POST /api/meals. -/
structure AddMealReq where
  mealType : Option String
  mealDate : Option String
  mealTime : Option String
  notes : Option String
  foodItems : Option (List FoodItemInput)
deriving DecidableEq, Repr

/-- The responses of POST /api/meals the claims distinguish. -/
inductive AddMealResult where
  | badRequest : Nat → String → String → AddMealResult
  | created : Nat → String → Nat → AddMealResult
deriving DecidableEq, Repr

/-- POST /api/meals.  The INSERT INTO Meals omits the four totals; modelled
from the spec: their schema defaults (the schema is not under src/) are 0,
the zero-children value.  When the request carries a nonempty foodItems
array the handler then inserts the valid items and recomputes the totals on
the stored-routine or the fallback path. -/
def addMeal (useRoutine : Bool) (db : MealsDb) (uid : Nat)
    (req : AddMealReq) : AddMealResult × MealsDb :=
  if !truthyStr req.mealType || !truthyStr req.mealDate ||
     !truthyStr req.mealTime then
    (.badRequest 400 "Validation failed"
       "Meal type, date, and time are required", db)
  else
    let mid := db.nextMealId
    let db1 := { db with
      meals := db.meals ++
        [{ mealId := mid, userId := uid, mealType := req.mealType.getD "",
           mealDate := req.mealDate.getD "", mealTime := req.mealTime.getD "",
           totalCalories := 0, totalProtein := 0, totalCarbs := 0,
           totalFat := 0, notes := req.notes }],
      nextMealId := mid + 1 }
    match req.foodItems with
    | some its =>
      if 0 < its.length then
        let newRows := insertMealItems db.foods mid its
        let db2 := { db1 with mealItems := db1.mealItems ++ newRows }
        let db3 := { db2 with
          meals := recomputeMealTotals useRoutine db2.meals db2.mealItems mid }
        (.created 201 "Meal added successfully" mid, db3)
      else (.created 201 "Meal added successfully" mid, db1)
    | none => (.created 201 "Meal added successfully" mid, db1)

theorem insertMealItem_isSome (foods : List FoodRow) (mid : Nat)
    (it : FoodItemInput) :
    (insertMealItem foods mid it).isSome = itemAccepted foods it := by
  unfold insertMealItem itemAccepted
  by_cases h : itemInvalid it = true
  · simp [h]
  · rw [if_neg h]
    cases hf : findFood foods (it.foodId.getD 0) with
    | none => simp [h, hf]
    | some f => simp [h, hf]

theorem insertMealItems_length (foods : List FoodRow) (mid : Nat)
    (its : List FoodItemInput) :
    (insertMealItems foods mid its).length =
      (its.filter (fun it => itemAccepted foods it)).length := by
  induction its with
  | nil => rfl
  | cons a t ih =>
    have hs := insertMealItem_isSome foods mid a
    unfold insertMealItems at ih ⊢
    rw [List.filterMap_cons, List.filter_cons]
    cases hio : insertMealItem foods mid a with
    | none =>
      rw [hio] at hs
      rw [← hs]
      simpa using ih
    | some r =>
      rw [hio] at hs
      rw [← hs]
      simpa using ih

theorem insertMealItems_mealId (foods : List FoodRow) (mid : Nat)
    (its : List FoodItemInput) :
    ∀ r ∈ insertMealItems foods mid its, r.mealId = mid := by
  intro r hr
  rcases List.mem_filterMap.1 hr with ⟨it, _, hsome⟩
  unfold insertMealItem at hsome
  by_cases h : itemInvalid it = true
  · rw [if_pos h] at hsome; cases hsome
  · rw [if_neg h] at hsome
    cases hf : findFood foods (it.foodId.getD 0) with
    | none => rw [hf] at hsome; cases hsome
    | some f =>
      rw [hf] at hsome
      have := Option.some.inj hsome
      rw [← this]

/-- C10: meal creation returns 201 success even when some or all supplied
food items are invalid or reference a missing food row: exactly the
accepted items produce Meal_Items inserts (each invalid item is skipped
with no row), and the recomputed totals are the sums over just those
inserted rows. -/
theorem meal_creation_skips_invalid_items (useRoutine : Bool) (db : MealsDb)
    (uid : Nat) (req : AddMealReq) (its : List FoodItemInput)
    (hty : truthyStr req.mealType = true)
    (hdt : truthyStr req.mealDate = true)
    (htm : truthyStr req.mealTime = true)
    (hfi : req.foodItems = some its) (hlen : 0 < its.length)
    (hfresh : ∀ mi ∈ db.mealItems, mi.mealId ≠ db.nextMealId) :
    (addMeal useRoutine db uid req).1 =
      .created 201 "Meal added successfully" db.nextMealId ∧
    (addMeal useRoutine db uid req).2.mealItems =
      db.mealItems ++ insertMealItems db.foods db.nextMealId its ∧
    (insertMealItems db.foods db.nextMealId its).length =
      (its.filter (fun it => itemAccepted db.foods it)).length ∧
    (∀ m ∈ (addMeal useRoutine db uid req).2.meals,
      m.mealId = db.nextMealId →
      m.totalCalories = ((insertMealItems db.foods db.nextMealId its).map
          (fun mi => mi.calories)).sum ∧
      m.totalProtein = ((insertMealItems db.foods db.nextMealId its).map
          (fun mi => mi.protein)).sum ∧
      m.totalCarbs = ((insertMealItems db.foods db.nextMealId its).map
          (fun mi => mi.carbohydrates)).sum ∧
      m.totalFat = ((insertMealItems db.foods db.nextMealId its).map
          (fun mi => mi.fat)).sum) := by
  have hmain : addMeal useRoutine db uid req =
      (.created 201 "Meal added successfully" db.nextMealId,
       { meals := recomputeMealTotals useRoutine
           (db.meals ++
             [{ mealId := db.nextMealId, userId := uid,
                mealType := req.mealType.getD "",
                mealDate := req.mealDate.getD "",
                mealTime := req.mealTime.getD "",
                totalCalories := 0, totalProtein := 0, totalCarbs := 0,
                totalFat := 0, notes := req.notes }])
           (db.mealItems ++ insertMealItems db.foods db.nextMealId its)
           db.nextMealId,
         mealItems := db.mealItems ++
           insertMealItems db.foods db.nextMealId its,
         foods := db.foods,
         nextMealId := db.nextMealId + 1 }) := by
    unfold addMeal
    rw [if_neg (by simp [hty, hdt, htm]), hfi]
    simp only [if_pos hlen]
  have hfil : mealItemsOf
      (db.mealItems ++ insertMealItems db.foods db.nextMealId its)
      db.nextMealId = insertMealItems db.foods db.nextMealId its := by
    unfold mealItemsOf
    rw [List.filter_append]
    have h1 : db.mealItems.filter (fun mi => mi.mealId == db.nextMealId)
        = [] := by
      rw [List.filter_eq_nil_iff]
      intro mi hmi
      simp [hfresh mi hmi]
    have h2 : (insertMealItems db.foods db.nextMealId its).filter
        (fun mi => mi.mealId == db.nextMealId) =
        insertMealItems db.foods db.nextMealId its := by
      rw [List.filter_eq_self]
      intro mi hmi
      simp [insertMealItems_mealId db.foods db.nextMealId its mi hmi]
    rw [h1, h2, List.nil_append]
  refine ⟨by rw [hmain], by rw [hmain],
          insertMealItems_length db.foods db.nextMealId its, ?_⟩
  intro m hm hid
  rw [hmain] at hm
  have := recomputeMealTotals_totals useRoutine _ _ db.nextMealId m hm hid
  rw [hfil] at this
  exact this

/-- A food catalogue with one row for the witness run. -/
def c10Db : MealsDb :=
  { meals := [], mealItems := [],
    foods := [{ foodId := 5, foodName := "Oats", brand := none,
                servingSize := some "40g", caloriesPerServing := 150,
                protein := 5, carbohydrates := 27, fat := 3 }],
    nextMealId := 1 }

/-- A request carrying one valid item, one with a nonpositive quantity and
one referencing a food id with no Food_Items row. -/
def c10Req : AddMealReq :=
  { mealType := some "Breakfast", mealDate := some "2025-01-03",
    mealTime := some "08:00", notes := none,
    foodItems := some
      [ { foodId := some 5, quantity := some 2, servingUnit := none },
        { foodId := some 5, quantity := some 0, servingUnit := none },
        { foodId := some 9, quantity := some 1, servingUnit := none } ] }

theorem meal_creation_skips_invalid_items_witness :
    (addMeal false c10Db 1 c10Req).1 =
      .created 201 "Meal added successfully" c10Db.nextMealId ∧
    (addMeal false c10Db 1 c10Req).2.mealItems =
      c10Db.mealItems ++
        insertMealItems c10Db.foods c10Db.nextMealId
          (c10Req.foodItems.getD []) ∧
    (insertMealItems c10Db.foods c10Db.nextMealId
        (c10Req.foodItems.getD [])).length =
      ((c10Req.foodItems.getD []).filter
        (fun it => itemAccepted c10Db.foods it)).length ∧
    (∀ m ∈ (addMeal false c10Db 1 c10Req).2.meals,
      m.mealId = c10Db.nextMealId →
      m.totalCalories = ((insertMealItems c10Db.foods c10Db.nextMealId
          (c10Req.foodItems.getD [])).map (fun mi => mi.calories)).sum ∧
      m.totalProtein = ((insertMealItems c10Db.foods c10Db.nextMealId
          (c10Req.foodItems.getD [])).map (fun mi => mi.protein)).sum ∧
      m.totalCarbs = ((insertMealItems c10Db.foods c10Db.nextMealId
          (c10Req.foodItems.getD [])).map (fun mi => mi.carbohydrates)).sum ∧
      m.totalFat = ((insertMealItems c10Db.foods c10Db.nextMealId
          (c10Req.foodItems.getD [])).map (fun mi => mi.fat)).sum) :=
  meal_creation_skips_invalid_items false c10Db 1 c10Req
    (c10Req.foodItems.getD [])
    (by decide) (by decide) (by decide) (by decide) (by decide) (by decide)

end NutriTrack
